import Mathlib

/-!
# Verification of the wuv_monitior backend core

Shallow embedding of `src/backend/index.js` (the monitoring backend):
the in-memory snapshot (`latestMetrics`), the sampler tasks
(`updateFastMetrics`, `updateNetworkMetrics`, `updateDiskMetrics`),
the history recorder (`recordHistory`), the retention janitor
(`cleanupHistory`) and the history query endpoint
(`app.get('/api/history')`).

Numbers are modelled as rationals (JS numbers), wall-clock timestamps as
integers counting seconds.  Fallible asynchronous calls to the telemetry
provider are modelled with `Except Unit`; SQLite's `metrics` table is a
list of rows in insertion order.
-/

namespace WuvMonitor

/-- The range token `'1h'`. -/
def tok1h : String := "1h"

/-- The range token `'6h'`. -/
def tok6h : String := "6h"

/-- The range token `'24h'`. -/
def tok24h : String := "24h"

/-- The range token `'7d'`. -/
def tok7d : String := "7d"

/-- The `':'` separator of the `%H:%M` label. -/
def colonStr : String := ":"

/-- The zero-padding digit of the `%H:%M` label. -/
def zeroStr : String := "0"

/-- The error payload text of the `/api/history` handler. -/
def fetchErrorMsg : String := "Failed to fetch history"

/-- The Node.js process event for uncaught exceptions. -/
def uncaughtExceptionEvent : String := "uncaughtException"

/-- The Node.js process event for unhandled promise rejections. -/
def unhandledRejectionEvent : String := "unhandledRejection"

/-- Static CPU identity captured once by `getStaticData`
(`manufacturer`, `brand`, `speed`, `cores`). -/
structure CpuInfo where
  manufacturer : String
  brand : String
  speed : ℚ
  cores : ℕ
deriving DecidableEq

/-- The `cpu` facet of `latestMetrics`.  Initially `{}` (no fields);
after a fast-task success it is `{ ...staticInfo.cpu, load }`. -/
structure CpuFacet where
  info : Option CpuInfo
  load : Option ℚ
deriving DecidableEq

/-- The populated `memory` facet written by `updateFastMetrics`. -/
structure MemFacet where
  total : ℚ
  free : ℚ
  used : ℚ
  active : ℚ
  percentage : ℚ
deriving DecidableEq

/-- One entry of the `network` facet: `{ iface, rx_sec, tx_sec }`.
`rx_sec`/`tx_sec` may be `null` from systeminformation, hence `Option`. -/
structure NetEntry where
  iface : String
  rx_sec : Option ℚ
  tx_sec : Option ℚ
deriving DecidableEq

/-- One entry of the `disk` facet:
`{ fs, type, size, used, available, use }`. -/
structure DiskEntry where
  fs : String
  type : String
  size : ℚ
  used : ℚ
  available : ℚ
  use : ℚ
deriving DecidableEq

/-- The shared mutable snapshot `latestMetrics`. The `memory` facet is an
`Option` because the initial value `{}` has none of the fields the code
later reads. -/
structure Metrics where
  cpu : CpuFacet
  memory : Option MemFacet
  network : List NetEntry
  disk : List DiskEntry
  uptime : ℚ
deriving DecidableEq

/-- `latestMetrics`'s initial value:
`{ cpu: {}, memory: {}, network: [], disk: [], uptime: 0 }`. -/
def initialMetrics : Metrics :=
  { cpu := { info := none, load := none }
    memory := none
    network := []
    disk := []
    uptime := 0 }

/-- Result of `Promise.all([si.mem(), si.currentLoad(), si.time()])`
consumed by the fast task. -/
structure FastSample where
  memTotal : ℚ
  memFree : ℚ
  memUsed : ℚ
  memActive : ℚ
  currentLoad : ℚ
  uptime : ℚ
deriving DecidableEq

/-- `updateFastMetrics`: on provider success, replace the `cpu`, `memory`
and `uptime` facets from the sample (spreading the cached static CPU info)
and emit the whole snapshot as one `metrics` event; on provider failure,
catch, leave every facet unchanged and emit nothing.  Returns the new
snapshot together with the list of emitted `metrics` payloads. -/
def updateFastMetrics (staticCpu : Option CpuInfo) (r : Except Unit FastSample)
    (m : Metrics) : Metrics × List Metrics :=
  match r with
  | .error _ => (m, [])
  | .ok s =>
      let m' : Metrics :=
        { m with
          cpu := { info := staticCpu, load := some s.currentLoad }
          memory := some
            { total := s.memTotal
              free := s.memFree
              used := s.memUsed
              active := s.memActive
              percentage := s.memUsed / s.memTotal * 100 }
          uptime := s.uptime }
      (m', [m'])

/-- `updateNetworkMetrics`: on success, replace the `network` facet with
the provider entries projected to `{ iface, rx_sec, tx_sec }`; on failure,
catch and leave the snapshot unchanged.  It never emits. -/
def updateNetworkMetrics (r : Except Unit (List NetEntry)) (m : Metrics) : Metrics :=
  match r with
  | .error _ => m
  | .ok stats =>
      { m with network := stats.map fun i =>
          { iface := i.iface, rx_sec := i.rx_sec, tx_sec := i.tx_sec } }

/-- `updateDiskMetrics`: on success, replace the `disk` facet with the
provider entries projected to `{ fs, type, size, used, available, use }`;
on failure, catch and leave the snapshot unchanged. -/
def updateDiskMetrics (r : Except Unit (List DiskEntry)) (m : Metrics) : Metrics :=
  match r with
  | .error _ => m
  | .ok fsSize =>
      { m with disk := fsSize.map fun d =>
          { fs := d.fs, type := d.type, size := d.size,
            used := d.used, available := d.available, use := d.use } }

/-- `io.on('connection', socket => socket.emit('metrics', latestMetrics))`:
the payloads sent to a newly connected observer. -/
def onConnection (m : Metrics) : List Metrics := [m]

/-- One row of the SQLite `metrics` table.  `timestamp` is the
`CURRENT_TIMESTAMP` default assigned at insertion, in seconds (UTC). -/
structure HistoryRow where
  timestamp : ℤ
  cpu_load : ℚ
  mem_percentage : ℚ
  net_rx : ℚ
  net_tx : ℚ
  disk_usage : ℚ
deriving DecidableEq

/-- The row `recordHistory` inserts at time `now` from snapshot `m`:
`cpu_load = latestMetrics.cpu.load || 0`,
`mem_percentage = latestMetrics.memory.percentage || 0`,
`net_rx`/`net_tx` are the `reduce` sums of `rx_sec || 0` / `tx_sec || 0`,
`disk_usage = latestMetrics.disk[0]?.use || 0`. -/
def summaryRow (now : ℤ) (m : Metrics) : HistoryRow :=
  { timestamp := now
    cpu_load := m.cpu.load.getD 0
    mem_percentage := (m.memory.map MemFacet.percentage).getD 0
    net_rx := m.network.foldl (fun acc curr => acc + curr.rx_sec.getD 0) 0
    net_tx := m.network.foldl (fun acc curr => acc + curr.tx_sec.getD 0) 0
    disk_usage := ((m.disk.head?).map DiskEntry.use).getD 0 }

/-- `recordHistory`: one `INSERT INTO metrics` appending the summary row. -/
def recordHistory (now : ℤ) (m : Metrics) (db : List HistoryRow) : List HistoryRow :=
  db ++ [summaryRow now m]

/-- Seven days in seconds, the retention horizon `'-7 days'`. -/
def sevenDays : ℤ := 604800

/-- `cleanupHistory`:
`DELETE FROM metrics WHERE timestamp < datetime('now', '-7 days')` —
keeps exactly the rows whose timestamp is not below `now - 7 days`. -/
def cleanupHistory (now : ℤ) (db : List HistoryRow) : List HistoryRow :=
  db.filter fun r => decide (¬ r.timestamp < now - sevenDays)

/-- The `switch(range)` of the `/api/history` handler, mapped to the
lookback window in seconds; `req.query.range || '1h'` supplies the default
for an absent token, the `default:` arm for an unknown one. -/
def rangeWindowStr (r : String) : ℤ :=
  if r = tok1h then 3600
  else if r = tok6h then 21600
  else if r = tok24h then 86400
  else if r = tok7d then 604800
  else 3600

/-- Lookback window for an optional range token:
`req.query.range || '1h'` feeds the switch above. -/
def rangeWindow (range : Option String) : ℤ :=
  rangeWindowStr (range.getD tok1h)

/-- Zero-padded two-digit decimal rendering used by `strftime`. -/
def pad2 (n : ℕ) : String :=
  if n < 10 then zeroStr ++ toString n else toString n

/-- `strftime('%H:%M', datetime(timestamp, 'localtime'))`: the timestamp
shifted by the host's UTC offset `tz` (seconds), formatted hour:minute. -/
def hhmmLabel (tz : ℤ) (t : ℤ) : String :=
  let sod := ((t + tz) % 86400).toNat
  pad2 (sod / 3600) ++ colonStr ++ pad2 (sod % 3600 / 60)

/-- One element of the JSON array returned by `/api/history`:
`{ time, cpu, mem, rx, tx, disk }`. -/
structure HistoryProjection where
  time : String
  cpu : ℚ
  mem : ℚ
  rx : ℚ
  tx : ℚ
  disk : ℚ
deriving DecidableEq

/-- The SELECT column list: project one row to its response shape. -/
def projectRow (tz : ℤ) (r : HistoryRow) : HistoryProjection :=
  { time := hhmmLabel tz r.timestamp
    cpu := r.cpu_load
    mem := r.mem_percentage
    rx := r.net_rx
    tx := r.net_tx
    disk := r.disk_usage }

/-- `WHERE timestamp > datetime('now', timeFilter) ORDER BY timestamp ASC`:
the rows selected by the history query, in response order. -/
def historySelect (now : ℤ) (range : Option String) (db : List HistoryRow) :
    List HistoryRow :=
  (db.filter fun r => decide (now - rangeWindow range < r.timestamp)).mergeSort
    fun a b => decide (a.timestamp ≤ b.timestamp)

/-- The full `/api/history` result body on a successful read. -/
def historyQuery (tz now : ℤ) (range : Option String) (db : List HistoryRow) :
    List HistoryProjection :=
  (historySelect now range db).map (projectRow tz)

/-- HTTP response of the `/api/history` handler: status code plus either
the error payload (`{"error": ...}`) or the rows. -/
structure HistoryResponse where
  status : ℕ
  body : Except String (List HistoryProjection)

/-- The `/api/history` handler: `try { ...SELECT...; res.json(rows) }
catch { res.status(500).json({ error: "Failed to fetch history" }) }`.
`readOk` models whether the storage read succeeds; the handler returns the
response together with the (untouched) durable store. -/
def handleHistory (tz now : ℤ) (range : Option String) (readOk : Bool)
    (db : List HistoryRow) : HistoryResponse × List HistoryRow :=
  if readOk then
    ({ status := 200, body := .ok (historyQuery tz now range db) }, db)
  else
    ({ status := 500, body := .error fetchErrorMsg }, db)

/-- Process-level event names for which the main backend
(`src/backend/index.js`) registers a `process.on` handler: it registers
none. -/
def mainBackendProcessHandlers : List String := []

/-- Process-level event names for which the fallback backend embedded in
`install.sh` registers a `process.on` handler that logs and returns
(keeping the process alive). -/
def fallbackBackendProcessHandlers : List String :=
  [uncaughtExceptionEvent, unhandledRejectionEvent]

/-- A backend installs the last-resort fault handlers when both the
uncaught-exception and the unhandled-rejection events are handled. -/
def installsLastResortHandler (hs : List String) : Prop :=
  uncaughtExceptionEvent ∈ hs ∧ unhandledRejectionEvent ∈ hs

instance (hs : List String) : Decidable (installsLastResortHandler hs) := by
  unfold installsLastResortHandler
  infer_instance

/-! ## Helper lemmas -/

/-- A left fold that accumulates `f` over a list equals the starting value
plus the sum of the mapped list. -/
theorem foldl_add_map_sum {α : Type} (f : α → ℚ) :
    ∀ (l : List α) (a : ℚ),
      l.foldl (fun acc x => acc + f x) a = a + (l.map f).sum := by
  intro l
  induction l with
  | nil => intro a; simp
  | cons x xs ih =>
      intro a
      simp only [List.foldl_cons, List.map_cons, List.sum_cons]
      rw [ih, add_assoc]

/-- Membership in the rows selected by the history query. -/
theorem mem_historySelect {now : ℤ} {range : Option String}
    {db : List HistoryRow} {r : HistoryRow} :
    r ∈ historySelect now range db ↔
      r ∈ db ∧ now - rangeWindow range < r.timestamp := by
  unfold historySelect
  rw [List.mem_mergeSort, List.mem_filter]
  simp

/-- The selected rows are a permutation of the filtered store. -/
theorem historySelect_perm (now : ℤ) (range : Option String)
    (db : List HistoryRow) :
    (historySelect now range db).Perm
      (db.filter fun r => decide (now - rangeWindow range < r.timestamp)) :=
  List.mergeSort_perm _ _

/-- The selected rows come out sorted ascending by timestamp. -/
theorem historySelect_sorted (now : ℤ) (range : Option String)
    (db : List HistoryRow) :
    List.Pairwise (fun a b : HistoryRow => a.timestamp ≤ b.timestamp)
      (historySelect now range db) := by
  have h := @List.sorted_mergeSort HistoryRow
      (fun a b : HistoryRow => decide (a.timestamp ≤ b.timestamp))
      (fun a b c hab hbc => by
        simp only [decide_eq_true_eq] at hab hbc ⊢
        exact le_trans hab hbc)
      (fun a b => by
        simp only [Bool.or_eq_true, decide_eq_true_eq]
        exact le_total _ _)
      (db.filter fun r => decide (now - rangeWindow range < r.timestamp))
  exact h.imp fun hab => by simpa using hab

/-- Every range token resolves to a positive lookback window. -/
theorem rangeWindowStr_pos (r : String) : 0 < rangeWindowStr r := by
  unfold rangeWindowStr
  split
  · norm_num
  · split
    · norm_num
    · split
      · norm_num
      · split <;> norm_num

/-- Every range token resolves to a positive lookback window. -/
theorem rangeWindow_pos (range : Option String) : 0 < rangeWindow range :=
  rangeWindowStr_pos _

/-- Queries whose tokens resolve to the same window return the same body. -/
theorem historyQuery_congr_window {r₁ r₂ : Option String}
    (h : rangeWindow r₁ = rangeWindow r₂) (tz now : ℤ)
    (db : List HistoryRow) :
    historyQuery tz now r₁ db = historyQuery tz now r₂ db := by
  unfold historyQuery historySelect
  rw [h]

/-! ## Claim theorems -/

/-- C1: for every store state and resolved lookback window, `/api/history`
returns exactly the rows with timestamp strictly greater than
`now − window` (a row at exactly `now − window` is excluded, one at
`now − window + 1` is included), ordered ascending by timestamp, each row
projected to `{time, cpu, mem, rx, tx, disk}` with `time` the local-time
hour:minute label of the record's timestamp. -/
theorem historyQuery_window_spec (tz now : ℤ) (range : Option String)
    (db : List HistoryRow) :
    (historySelect now range db).Perm
        (db.filter fun r => decide (now - rangeWindow range < r.timestamp))
    ∧ List.Pairwise (fun a b : HistoryRow => a.timestamp ≤ b.timestamp)
        (historySelect now range db)
    ∧ (∀ r : HistoryRow, r.timestamp = now - rangeWindow range →
        r ∉ historySelect now range db)
    ∧ (∀ r : HistoryRow, r ∈ db →
        r.timestamp = now - rangeWindow range + 1 →
        r ∈ historySelect now range db)
    ∧ historyQuery tz now range db
        = (historySelect now range db).map (projectRow tz)
    ∧ (∀ r : HistoryRow, projectRow tz r =
        { time := hhmmLabel tz r.timestamp, cpu := r.cpu_load,
          mem := r.mem_percentage, rx := r.net_rx, tx := r.net_tx,
          disk := r.disk_usage }) := by
  refine ⟨historySelect_perm now range db, historySelect_sorted now range db,
    ?_, ?_, rfl, fun r => rfl⟩
  · intro r hts hmem
    have h := (mem_historySelect.mp hmem).2
    omega
  · intro r hmem hts
    exact mem_historySelect.mpr ⟨hmem, by omega⟩

/-- C2: the range token maps `'1h'`/`'6h'`/`'24h'`/`'7d'` to 1/6/24 hours
and 7 days, and any other or absent token to 1 hour, so an unknown or
absent token yields exactly the output of an explicit `'1h'` request on
the same store at the same time. -/
theorem rangeWindow_mapping :
    rangeWindow (some tok1h) = 3600
    ∧ rangeWindow (some tok6h) = 21600
    ∧ rangeWindow (some tok24h) = 86400
    ∧ rangeWindow (some tok7d) = 604800
    ∧ rangeWindow none = 3600
    ∧ (∀ s : String, s ≠ tok6h → s ≠ tok24h → s ≠ tok7d →
        rangeWindow (some s) = 3600)
    ∧ (∀ (tz now : ℤ) (db : List HistoryRow) (s : String),
        s ≠ tok6h → s ≠ tok24h → s ≠ tok7d →
        historyQuery tz now (some s) db
          = historyQuery tz now (some tok1h) db)
    ∧ (∀ (tz now : ℤ) (db : List HistoryRow),
        historyQuery tz now none db = historyQuery tz now (some tok1h) db) := by
  have hunk : ∀ s : String, s ≠ tok6h → s ≠ tok24h → s ≠ tok7d →
      rangeWindow (some s) = 3600 := by
    intro s h6 h24 h7
    by_cases h1 : s = tok1h
    · simp [rangeWindow, rangeWindowStr, h1]
    · simp [rangeWindow, rangeWindowStr, h1, h6, h24, h7]
  refine ⟨by decide, by decide, by decide, by decide, by decide, hunk,
    ?_, ?_⟩
  · intro tz now db s h6 h24 h7
    exact historyQuery_congr_window
      (by rw [hunk s h6 h24 h7]; decide) tz now db
  · intro tz now db
    exact historyQuery_congr_window (by decide) tz now db

/-- C3: every recorder run appends exactly one row whose `cpu_load` and
`mem_percentage` come from the snapshot's cpu and memory facets,
`net_rx`/`net_tx` are the sums of `rx_sec`/`tx_sec` over the network
sequence, and `disk_usage` is the `use` of the first disk entry (0 when
the sequence is empty); on the never-populated default snapshot it still
appends an all-zero row. -/
theorem recordHistory_appends_summary (now : ℤ) (m : Metrics)
    (db : List HistoryRow) :
    recordHistory now m db = db ++ [summaryRow now m]
    ∧ (recordHistory now m db).length = db.length + 1
    ∧ (summaryRow now m).timestamp = now
    ∧ (summaryRow now m).cpu_load = m.cpu.load.getD 0
    ∧ (summaryRow now m).mem_percentage
        = (m.memory.map MemFacet.percentage).getD 0
    ∧ (summaryRow now m).net_rx = (m.network.map fun e => e.rx_sec.getD 0).sum
    ∧ (summaryRow now m).net_tx = (m.network.map fun e => e.tx_sec.getD 0).sum
    ∧ (summaryRow now m).disk_usage = ((m.disk.head?).map DiskEntry.use).getD 0
    ∧ recordHistory now initialMetrics db
        = db ++ [{ timestamp := now, cpu_load := 0, mem_percentage := 0,
                   net_rx := 0, net_tx := 0, disk_usage := 0 }] := by
  refine ⟨rfl, by simp [recordHistory], rfl, rfl, rfl, ?_, ?_, rfl, rfl⟩
  · show m.network.foldl (fun acc curr => acc + curr.rx_sec.getD 0) 0 = _
    rw [foldl_add_map_sum (fun e : NetEntry => e.rx_sec.getD 0), zero_add]
  · show m.network.foldl (fun acc curr => acc + curr.tx_sec.getD 0) 0 = _
    rw [foldl_add_map_sum (fun e : NetEntry => e.tx_sec.getD 0), zero_add]

/-- C4: the janitor deletes exactly the rows strictly older than 7 days
at its execution time and keeps every row aged 7 days or less; a row
recorded at time `T` is selected by a query made immediately, and is
absent from the store — hence from every later query — once the janitor
has run at a time strictly after `T + 7 days`. -/
theorem cleanupHistory_retention (now : ℤ) (db : List HistoryRow) :
    (∀ r : HistoryRow, (cleanupHistory now db).count r =
        if r.timestamp < now - sevenDays then 0 else db.count r)
    ∧ (cleanupHistory now db).Sublist db
    ∧ (∀ r : HistoryRow, r ∈ db → ¬ r.timestamp < now - sevenDays →
        r ∈ cleanupHistory now db)
    ∧ (∀ (m : Metrics) (range : Option String),
        summaryRow now m ∈ historySelect now range (recordHistory now m db))
    ∧ (∀ (r : HistoryRow) (nowJ : ℤ), r.timestamp + sevenDays < nowJ →
        r ∉ cleanupHistory nowJ db)
    ∧ (∀ (r : HistoryRow) (nowJ nowQ : ℤ) (range : Option String),
        r.timestamp + sevenDays < nowJ →
        r ∉ historySelect nowQ range (cleanupHistory nowJ db)) := by
  have hnotmem : ∀ (r : HistoryRow) (nowJ : ℤ),
      r.timestamp + sevenDays < nowJ → r ∉ cleanupHistory nowJ db := by
    intro r nowJ hage hmem
    have := (List.mem_filter.mp hmem).2
    simp only [decide_eq_true_eq] at this
    omega
  refine ⟨?_, List.filter_sublist db, ?_, ?_, hnotmem, ?_⟩
  · intro r
    by_cases hold : r.timestamp < now - sevenDays
    · rw [if_pos hold]
      refine List.count_eq_zero.mpr ?_
      intro hmem
      have := (List.mem_filter.mp hmem).2
      simp only [decide_eq_true_eq] at this
      omega
    · rw [if_neg hold]
      exact List.count_filter (by simpa using hold)
  · intro r hmem hkeep
    exact List.mem_filter.mpr ⟨hmem, by simpa using hkeep⟩
  · intro m range
    refine mem_historySelect.mpr ⟨?_, ?_⟩
    · unfold recordHistory
      simp
    · have := rangeWindow_pos range
      show now - rangeWindow range < (summaryRow now m).timestamp
      show now - rangeWindow range < now
      omega
  · intro r nowJ nowQ range hage hmem
    exact hnotmem r nowJ hage (mem_historySelect.mp hmem).1

/-- C5: a successful fast-task run pushes the entire refreshed snapshot
(all facets, including the untouched network and disk ones) as one
`metrics` event; a newly connecting observer is immediately sent the
current snapshot; a failed run emits nothing. -/
theorem fastTask_broadcast (staticCpu : Option CpuInfo) (s : FastSample)
    (m : Metrics) :
    (updateFastMetrics staticCpu (Except.ok s) m).2
        = [(updateFastMetrics staticCpu (Except.ok s) m).1]
    ∧ ((updateFastMetrics staticCpu (Except.ok s) m).1).network = m.network
    ∧ ((updateFastMetrics staticCpu (Except.ok s) m).1).disk = m.disk
    ∧ (∀ e : Unit, (updateFastMetrics staticCpu (Except.error e) m).2 = [])
    ∧ onConnection m = [m] :=
  ⟨rfl, rfl, rfl, fun _ => rfl, rfl⟩

/-- C6: on a failed provider query, each sampler task returns the
snapshot unchanged (no facet cleared), and the fast task emits no
`metrics` event for that run; the failure is absorbed at the task
boundary. -/
theorem task_failure_stale (staticCpu : Option CpuInfo) (m : Metrics)
    (e : Unit) :
    updateFastMetrics staticCpu (Except.error e) m = (m, [])
    ∧ updateNetworkMetrics (Except.error e) m = m
    ∧ updateDiskMetrics (Except.error e) m = m :=
  ⟨rfl, rfl, rfl⟩

/-- C7: the history handler never mutates the durable store; a failed
read yields status 500 with the error payload and no rows, a successful
read yields status 200 with the projected rows. -/
theorem handleHistory_readonly_status (tz now : ℤ) (range : Option String)
    (readOk : Bool) (db : List HistoryRow) :
    (handleHistory tz now range readOk db).2 = db
    ∧ (readOk = false →
        (handleHistory tz now range readOk db).1.status = 500
        ∧ (handleHistory tz now range readOk db).1.body
            = Except.error fetchErrorMsg)
    ∧ (readOk = true →
        (handleHistory tz now range readOk db).1.status = 200
        ∧ (handleHistory tz now range readOk db).1.body
            = Except.ok (historyQuery tz now range db)) := by
  cases readOk
  · exact ⟨rfl, fun _ => ⟨rfl, rfl⟩, fun h => Bool.noConfusion h⟩
  · exact ⟨rfl, fun h => Bool.noConfusion h, fun _ => ⟨rfl, rfl⟩⟩

/-- C9: running the history handler a second time with the same token,
the same outcome of the storage read and the same clock, on the store as
the first call left it, produces exactly the first call's response and
store: the query is deterministic and idempotent. -/
theorem handleHistory_idempotent (tz now : ℤ) (range : Option String)
    (readOk : Bool) (db : List HistoryRow) :
    handleHistory tz now range readOk (handleHistory tz now range readOk db).2
      = handleHistory tz now range readOk db := by
  cases readOk <;> rfl

/-- C10: each sampler writes only its own facets — the fast task leaves
network and disk unchanged, the network task touches only the network
facet, the disk task only the disk facet — on success and on failure
alike. -/
theorem sampler_frame (staticCpu : Option CpuInfo)
    (rf : Except Unit FastSample) (rn : Except Unit (List NetEntry))
    (rd : Except Unit (List DiskEntry)) (m : Metrics) :
    ((updateFastMetrics staticCpu rf m).1.network = m.network
      ∧ (updateFastMetrics staticCpu rf m).1.disk = m.disk)
    ∧ ((updateNetworkMetrics rn m).cpu = m.cpu
      ∧ (updateNetworkMetrics rn m).memory = m.memory
      ∧ (updateNetworkMetrics rn m).disk = m.disk
      ∧ (updateNetworkMetrics rn m).uptime = m.uptime)
    ∧ ((updateDiskMetrics rd m).cpu = m.cpu
      ∧ (updateDiskMetrics rd m).memory = m.memory
      ∧ (updateDiskMetrics rd m).network = m.network
      ∧ (updateDiskMetrics rd m).uptime = m.uptime) := by
  refine ⟨?_, ?_, ?_⟩
  · cases rf <;> exact ⟨rfl, rfl⟩
  · cases rn <;> exact ⟨rfl, rfl, rfl, rfl⟩
  · cases rd <;> exact ⟨rfl, rfl, rfl, rfl⟩

/-- C8 counterexample: the main backend (`src/backend/index.js`)
registers no process-level last-resort fault handler at all. -/
theorem mainBackend_no_lastResortHandler :
    ¬ installsLastResortHandler mainBackendProcessHandlers := by
  decide

/-- C8 amended: only the fallback backend embedded in `install.sh`
installs the process-level handlers for uncaught exceptions and unhandled
rejections; the main backend installs none, so an unexpected fault
outside the per-task catch blocks can terminate the main backend. -/
theorem lastResortHandler_fallback_only :
    installsLastResortHandler fallbackBackendProcessHandlers
    ∧ ¬ installsLastResortHandler mainBackendProcessHandlers := by
  decide

end WuvMonitor
